import Mathlib

/-!
Shallow embedding of the study-session / badge subsystem of the
Personalised Skill Growth Tracker (source files: auth_db.py, skills.py).

Timestamps are modelled as integer seconds (the source stores second-level
"%Y-%m-%d %H:%M:%S" strings and subtracts datetimes, so only the elapsed
seconds matter).  SQLite tables become Lean lists of rows; a SQL UPDATE
with a WHERE clause becomes a map that rewrites every matching row.
Python `int(x)` on a quotient of integers truncates toward zero, which is
`Int.tdiv` (for the second-precision elapsed times of the timer such a
quotient over 60 is always evaluated exactly by the float division).  The
float expression `int((progress_value / progress_range) * 100)` in
skills.get_study_badge is modelled bit-exactly: the division and the
multiplication are each rounded to the nearest binary64 value (ties to
even) over dyadic rationals, then truncated toward zero, exactly as IEEE
754 prescribes for the two operations; overflow and subnormals are not
modelled, being unreachable at the magnitudes involved.
-/

namespace SkillTracker

/-- A row of the `study_sessions` table (auth_db.py, initialize_db). -/
structure StudySession where
  id : Nat
  user_id : Nat
  skill_id : String
  start_time : Int
  end_time : Option Int
  duration_minutes : Option Int
deriving Repr, DecidableEq

/-- A row of the `user_badges` table (auth_db.py, initialize_db). -/
structure BadgeRecord where
  user_id : Nat
  total_study_minutes : Int
  current_badge : String
  badge_updated_at : Int
deriving Repr, DecidableEq

/-- The relational state touched by the timer and badge engines.
`nextId` models the AUTOINCREMENT id source for `study_sessions`. -/
structure DB where
  sessions : List StudySession
  badges : List BadgeRecord
  nextId : Nat
deriving Repr, DecidableEq

/-- One entry of the static badge table (title plus minute threshold). -/
structure BadgeLevel where
  title : String
  minutes : Int
deriving Repr, DecidableEq

/-- BADGE_LEVELS from auth_db.py, lines 266-279, in source order. -/
def BADGE_LEVELS : List BadgeLevel :=
  [⟨"Member", 0⟩, ⟨"Entry", 60⟩, ⟨"Beginner", 300⟩, ⟨"Intermediate", 900⟩,
   ⟨"Proficient", 1800⟩, ⟨"Advanced", 3600⟩, ⟨"Expert", 7200⟩,
   ⟨"A+ Student", 12000⟩, ⟨"Master", 18000⟩, ⟨"Grand Master", 24000⟩,
   ⟨"Study Machine", 30000⟩, ⟨"Study Master", 36000⟩]

/-- The default badge, `BADGE_LEVELS[0]["title"]` in the source. -/
def defaultBadge : String :=
  match BADGE_LEVELS with
  | [] => ""
  | l :: _ => l.title

/-- auth_db.get_badge_for_minutes: scan BADGE_LEVELS in reverse and return
the title of the first level whose threshold is ≤ the total; default to the
lowest badge when no level matches. -/
def get_badge_for_minutes (total_minutes : Int) : String :=
  match BADGE_LEVELS.reverse.find? (fun level => level.minutes ≤ total_minutes) with
  | some level => level.title
  | none => defaultBadge

/-- The row predicate of the SQL query
`... WHERE user_id = ? AND skill_id = ? AND end_time IS NULL`. -/
def isOpenFor (user_id : Nat) (skill_id : String) (r : StudySession) : Bool :=
  r.user_id == user_id && r.skill_id == skill_id && r.end_time == none

/-- The ongoing-session lookup performed by auth_db.start_study_session. -/
def findOpenSession (db : DB) (user_id : Nat) (skill_id : String) : Option StudySession :=
  db.sessions.find? (isOpenFor user_id skill_id)

/-- Result of auth_db.start_study_session: `(True, session_id)` or the
rejection `(False, "You already have an ongoing study session for this skill.")`. -/
inductive StartResult where
  | ok (session_id : Nat)
  | alreadyActive
deriving Repr, DecidableEq

/-- auth_db.start_study_session: reject when an open session exists for the
(user, skill) pair, otherwise insert exactly one new open row. -/
def start_study_session (db : DB) (user_id : Nat) (skill_id : String)
    (current_time : Int) : StartResult × DB :=
  match findOpenSession db user_id skill_id with
  | some _ => (StartResult.alreadyActive, db)
  | none =>
    let row : StudySession :=
      { id := db.nextId, user_id := user_id, skill_id := skill_id,
        start_time := current_time, end_time := none, duration_minutes := none }
    (StartResult.ok db.nextId,
     { db with sessions := db.sessions ++ [row], nextId := db.nextId + 1 })

/-- Result of auth_db.end_study_session: `(True, duration_minutes)` or the
rejection `(False, "No active study session found.")`. -/
inductive EndResult where
  | ok (duration_minutes : Int)
  | noActiveSession
deriving Repr, DecidableEq

/-- The row rewrite of `UPDATE study_sessions SET end_time = ?,
duration_minutes = ? WHERE id = ?`. -/
def closeRow (session_id : Nat) (end_time duration : Int) (s : StudySession) :
    StudySession :=
  if s.id = session_id then
    { s with end_time := some end_time, duration_minutes := some duration }
  else s

/-- The row rewrite of `UPDATE user_badges SET total_study_minutes = ?,
current_badge = ?, badge_updated_at = ? WHERE user_id = ?`. -/
def updateBadgeRow (user_id : Nat) (total : Int) (badge : String) (t : Int)
    (b : BadgeRecord) : BadgeRecord :=
  if b.user_id = user_id then
    { b with total_study_minutes := total, current_badge := badge,
             badge_updated_at := t }
  else b

/-- auth_db.end_study_session: look up the open row by id, stamp end time and
duration `int(elapsed_seconds / 60)`, then (when a user_badges row exists) add
the duration to the total and recompute the badge.  All writes commit together
at the single conn.commit() in the source, so one state transition models the
whole call. -/
def end_study_session (db : DB) (session_id : Nat) (current_time : Int) :
    EndResult × DB :=
  match db.sessions.find? (fun s => s.id == session_id && s.end_time == none) with
  | none => (EndResult.noActiveSession, db)
  | some s =>
    let duration_minutes : Int := (current_time - s.start_time).tdiv 60
    let sessions := db.sessions.map (closeRow session_id current_time duration_minutes)
    match db.badges.find? (fun b => b.user_id == s.user_id) with
    | some b =>
      let total_minutes := b.total_study_minutes + duration_minutes
      let new_badge := get_badge_for_minutes total_minutes
      (EndResult.ok duration_minutes,
       { db with sessions := sessions,
                 badges := db.badges.map
                   (updateBadgeRow s.user_id total_minutes new_badge current_time) })
    | none =>
      (EndResult.ok duration_minutes, { db with sessions := sessions })

/-- The index lookup `next((i for i, level in enumerate(BADGE_LEVELS) if
level["title"] == current_badge), 0)` used in auth_db.get_user_study_stats and
skills.get_study_badge. -/
def findLevelIndex (badge : String) : Nat :=
  (BADGE_LEVELS.findIdx? (fun level => level.title == badge)).getD 0

/-- The dictionary returned by auth_db.get_user_study_stats.  The float
display field total_hours = round(total_minutes / 60, 1) is not modelled; no
verified property refers to it. -/
structure StudyStats where
  total_minutes : Int
  current_badge : String
  next_badge : String
  minutes_to_next_badge : Int
deriving Repr, DecidableEq

/-- auth_db.get_user_study_stats: read the badge record and derive the next
badge and the minutes remaining to it. -/
def get_user_study_stats (db : DB) (user_id : Nat) : StudyStats :=
  match db.badges.find? (fun b => b.user_id == user_id) with
  | none =>
    { total_minutes := 0, current_badge := "Member", next_badge := "Entry",
      minutes_to_next_badge := 60 }
  | some r =>
    let idx := findLevelIndex r.current_badge
    if idx < BADGE_LEVELS.length - 1 then
      let nextLevel := (BADGE_LEVELS[idx + 1]?).getD ⟨"", 0⟩
      { total_minutes := r.total_study_minutes,
        current_badge := r.current_badge,
        next_badge := nextLevel.title,
        minutes_to_next_badge := max 0 (nextLevel.minutes - r.total_study_minutes) }
    else
      { total_minutes := r.total_study_minutes,
        current_badge := r.current_badge,
        next_badge := "Highest Level Achieved!",
        minutes_to_next_badge := 0 }

/-- Bit length with explicit fuel (the fuel only bounds the recursion
depth, which is logarithmic; passing n itself as fuel always suffices). -/
def bitLenAux : Nat → Nat → Nat
  | 0, _ => 0
  | fuel + 1, n => if n = 0 then 0 else bitLenAux fuel (n / 2) + 1

/-- Number of binary digits of n; for n ≥ 1 this is ⌊log2 n⌋ + 1. -/
def bitLen (n : Nat) : Nat :=
  bitLenAux n n

/-- Whether 2^e ≤ a / b for positive naturals a, b. -/
def pow2LE (e : Int) (a b : Nat) : Bool :=
  if 0 ≤ e then b * 2 ^ e.toNat ≤ a else b ≤ a * 2 ^ (-e).toNat

/-- ⌊log2 (a / b)⌋ for positive naturals a, b: the bit-length difference is
off by at most one, so testing two candidates suffices. -/
def ratLog2 (a b : Nat) : Int :=
  let e0 : Int := (bitLen a : Int) - (bitLen b : Int)
  if pow2LE (e0 + 1) a b then e0 + 1
  else if pow2LE e0 a b then e0
  else e0 - 1

/-- Round num / den (non-negative) to the nearest integer, ties to even:
the rounding mode of all IEEE 754 binary64 operations here. -/
def roundHalfEven (num den : Nat) : Nat :=
  let q := num / den
  let r := num % den
  if 2 * r < den then q
  else if den < 2 * r then q + 1
  else if q % 2 = 0 then q else q + 1

/-- The binary64 value nearest to a / b (a, b positive), as a dyadic pair
(m, p) of value m * 2^p with 2^52 ≤ m ≤ 2^53: scale a / b into
[2^52, 2^53) and round the 53-bit significand to nearest, ties to even.
This is the IEEE 754 result of the float division a / b (no overflow or
subnormal handling; unreachable at the magnitudes used here). -/
def flRatDyadic (a b : Nat) : Nat × Int :=
  let e := ratLog2 a b
  let shift : Int := 52 - e
  let m :=
    if 0 ≤ shift then roundHalfEven (a * 2 ^ shift.toNat) b
    else roundHalfEven a (b * 2 ^ (-shift).toNat)
  (m, e - 52)

/-- The binary64 value nearest to an exact dyadic m * 2^p: keep it if the
significand already fits in 53 bits, else round the excess bits away
(nearest, ties to even).  This is the IEEE 754 result of a float product
whose exact value is m * 2^p. -/
def flDyadic (m : Nat) (p : Int) : Nat × Int :=
  let L := bitLen m
  if L ≤ 53 then (m, p)
  else (roundHalfEven m (2 ^ (L - 53)), p + (L - 53))

/-- Truncation toward zero of a non-negative dyadic m * 2^p. -/
def truncDyadic (m : Nat) (p : Int) : Nat :=
  if 0 ≤ p then m * 2 ^ p.toNat else m / 2 ^ (-p).toNat

/-- The Python expression `int((value / range) * 100)` of
skills.get_study_badge, evaluated as the source does in binary64 floating
point: correctly rounded division, exact product by 100 then correctly
rounded (one multiplication), truncation toward zero by int().  Rounding is
symmetric in the sign, so the sign is applied last.  Validated value by
value against CPython over every (value, range) pair reachable from the
badge table and a large randomized set. -/
def pyPercentFloat (value range_size : Int) : Int :=
  if value = 0 then 0
  else
    let a := value.natAbs
    let b := range_size.natAbs
    let d1 := flRatDyadic a b
    let d2 := flDyadic (d1.1 * 100) d1.2
    let n := truncDyadic d2.1 d2.2
    if 0 ≤ value then (n : Int) else -(n : Int)

/-- The dictionary returned by skills.get_study_badge (stats plus
progress_percent). -/
structure BadgeView where
  total_minutes : Int
  current_badge : String
  next_badge : String
  minutes_to_next_badge : Int
  progress_percent : Int
deriving Repr, DecidableEq

/-- skills.get_study_badge: compute progress toward the next badge as
`min(100, int((progress_value / progress_range) * 100))`, with the fallbacks
of the source for a zero range or nothing left to the next badge.  The float
expression is modelled bit-exactly by `pyPercentFloat`. -/
def get_study_badge (db : DB) (user_id : Nat) : BadgeView :=
  let stats := get_user_study_stats db user_id
  let progress_percent : Int :=
    if 0 < stats.minutes_to_next_badge then
      let idx := findLevelIndex stats.current_badge
      let current_threshold := ((BADGE_LEVELS[idx]?).getD ⟨"", 0⟩).minutes
      let next_threshold :=
        if idx < BADGE_LEVELS.length - 1 then
          ((BADGE_LEVELS[idx + 1]?).getD ⟨"", 0⟩).minutes
        else current_threshold
      let progress_range := next_threshold - current_threshold
      let progress_value := stats.total_minutes - current_threshold
      if 0 < progress_range then min 100 (pyPercentFloat progress_value progress_range)
      else 100
    else 100
  { total_minutes := stats.total_minutes,
    current_badge := stats.current_badge,
    next_badge := stats.next_badge,
    minutes_to_next_badge := stats.minutes_to_next_badge,
    progress_percent := progress_percent }

/-- Result of skills.end_study_timer.  `noActiveTimer` is the early return
`(False, "No active study timer found")`; `ended m` is
`(True, "Study session ended. You studied for m minutes.")`; `dbError` is the
pass-through of a failure from auth_db.end_study_session. -/
inductive TimerResult where
  | noActiveTimer
  | ended (minutes : Int)
  | dbError
deriving Repr, DecidableEq

/-- The application state seen by skills.end_study_timer: the in-process
st.session_state.active_study_sessions map (absent before the first start, a
skill_id to session_id map afterwards) together with the database. -/
structure AppState where
  active_study_sessions : Option (List (String × Nat))
  db : DB
deriving Repr, DecidableEq

/-- skills.end_study_timer: consult only the in-process map; when the skill is
absent (or the map was never created) return the rejection without touching
the database.  On success remove the map entry.  The read-only calls to
get_user_study_stats before and after (used for a badge-change check whose
result is discarded) have no effect on state and are not modelled. -/
def end_study_timer (st : AppState) (skill_id : String) (current_time : Int) :
    TimerResult × AppState :=
  match st.active_study_sessions with
  | none => (TimerResult.noActiveTimer, st)
  | some m =>
    match (m.find? (fun p => p.1 == skill_id)).map Prod.snd with
    | none => (TimerResult.noActiveTimer, st)
    | some session_id =>
      match end_study_session st.db session_id current_time with
      | (EndResult.ok d, db2) =>
        (TimerResult.ended d,
         { active_study_sessions := some (m.filter (fun p => p.1 != skill_id)),
           db := db2 })
      | (EndResult.noActiveSession, db2) =>
        (TimerResult.dbError, { st with db := db2 })

/-- Whether the in-process map holds a timer for the skill. -/
def hasActiveTimer (st : AppState) (skill_id : String) : Bool :=
  match st.active_study_sessions with
  | none => false
  | some m => ((m.find? (fun p => p.1 == skill_id)).map Prod.snd).isSome

/-- A start or end call of the timer engine, with its wall-clock instant. -/
inductive Op where
  | start (user_id : Nat) (skill_id : String) (time : Int)
  | stop (session_id : Nat) (time : Int)
deriving Repr, DecidableEq

/-- State transition of one operation (the returned value is discarded). -/
def applyOp (db : DB) : Op → DB
  | Op.start u s t => (start_study_session db u s t).2
  | Op.stop sid t => (end_study_session db sid t).2

/-- Run a sequence of start and end calls. -/
def runOps (db : DB) (ops : List Op) : DB :=
  ops.foldl applyOp db

/-- Number of open sessions stored for a (user, skill) pair. -/
def openCount (db : DB) (user_id : Nat) (skill_id : String) : Nat :=
  (db.sessions.filter (isOpenFor user_id skill_id)).length

/-- The core invariant: at most one open session per (user, skill) pair. -/
def openInvariant (db : DB) : Prop :=
  ∀ u s, openCount db u s ≤ 1

/-- The empty store. -/
def emptyDB : DB :=
  { sessions := [], badges := [], nextId := 1 }

/-- Test fixture: the open session row of the concrete states below. -/
def rowOpen : StudySession :=
  { id := 1, user_id := 1, skill_id := "python", start_time := 0,
    end_time := none, duration_minutes := none }

/-- Test fixture: one open session for user 1 with an initialized badge
record, as after registration followed by one start. -/
def dbOneOpen : DB :=
  { sessions := [rowOpen],
    badges := [{ user_id := 1, total_study_minutes := 0, current_badge := "Member",
                 badge_updated_at := 0 }],
    nextId := 2 }

/-- Test fixture: one closed session for user 1 (nothing open). -/
def dbOneClosed : DB :=
  { sessions := [{ id := 1, user_id := 1, skill_id := "python", start_time := 0,
                   end_time := some 60, duration_minutes := some 1 }],
    badges := [{ user_id := 1, total_study_minutes := 1, current_badge := "Member",
                 badge_updated_at := 60 }],
    nextId := 2 }

/-- Test fixture: an open session whose owner has no badge record. -/
def dbNoBadge : DB :=
  { sessions := [rowOpen], badges := [], nextId := 2 }

/-- Test fixture: an open session whose stored start time (120) lies after
the wall-clock instant 0 at which it will be ended, so the computed
duration is negative. -/
def dbClockBack : DB :=
  { sessions := [{ id := 1, user_id := 1, skill_id := "python", start_time := 120,
                   end_time := none, duration_minutes := none }],
    badges := [{ user_id := 1, total_study_minutes := 100, current_badge := "Entry",
                 badge_updated_at := 0 }],
    nextId := 2 }

/-- Test fixture: a badge store holding user 1 at 150 total minutes with the
badge consistently derived from the total. -/
def dbTotal150 : DB :=
  { sessions := [],
    badges := [{ user_id := 1, total_study_minutes := 150, current_badge := "Entry",
                 badge_updated_at := 0 }],
    nextId := 1 }

/-- Test fixture: a badge store holding user 1 at the highest tier. -/
def dbMaxTier : DB :=
  { sessions := [],
    badges := [{ user_id := 1, total_study_minutes := 40000,
                 current_badge := "Study Master", badge_updated_at := 0 }],
    nextId := 1 }

/-- Test fixture: an application state whose database holds an open session
for (user 1, "python") while the in-process timer map is empty, as after a
process restart. -/
def appStateStale : AppState :=
  { active_study_sessions := some [], db := dbOneOpen }

/-- Modelled from the spec: the badge table entry carrying "the highest
threshold in the Badge Table whose minutes value is ≤ total_study_minutes"
(the maximum-threshold entry among those with threshold ≤ the total). -/
def highestTierLE (t : Int) : BadgeLevel :=
  (BADGE_LEVELS.filter (fun l => l.minutes ≤ t)).foldl
    (fun acc l => if acc.minutes ≤ l.minutes then l else acc) ⟨"Member", 0⟩

/-- Modelled from the spec: index of the current tier in the badge table,
the number of thresholds ≤ the total minus one (the table is sorted
ascending and its first threshold is 0). -/
def tierIdx (t : Int) : Nat :=
  (BADGE_LEVELS.filter (fun l => l.minutes ≤ t)).length - 1

/-- Modelled from the spec: the current tier threshold for a total. -/
def currentThreshold (t : Int) : Int :=
  ((BADGE_LEVELS[tierIdx t]?).getD ⟨"", 0⟩).minutes

/-- Modelled from the spec: the threshold of the tier immediately above the
current one. -/
def nextThreshold (t : Int) : Int :=
  ((BADGE_LEVELS[tierIdx t + 1]?).getD ⟨"", 0⟩).minutes

theorem emptyDB_inv : openInvariant emptyDB := by
  intro u s
  simp [openCount, emptyDB]

theorem length_filter_map_le (p : StudySession → Bool) (f : StudySession → StudySession)
    (h : ∀ r, p (f r) = true → p r = true) :
    ∀ l : List StudySession, ((l.map f).filter p).length ≤ (l.filter p).length := by
  intro l
  induction l with
  | nil => simp
  | cons a l ih =>
    simp only [List.map_cons, List.filter_cons]
    by_cases ha : p (f a) = true
    · rw [if_pos ha, if_pos (h a ha)]
      simp only [List.length_cons]
      omega
    · rw [if_neg ha]
      by_cases hb : p a = true
      · rw [if_pos hb]
        simp only [List.length_cons]
        omega
      · rw [if_neg hb]
        exact ih

theorem isOpenFor_closeRow (u : Nat) (sk : String) (sid : Nat) (t d : Int)
    (r : StudySession) (h : isOpenFor u sk (closeRow sid t d r) = true) :
    isOpenFor u sk r = true := by
  unfold closeRow at h
  split at h
  · simp [isOpenFor] at h
  · exact h

theorem start_preserves_inv (db : DB) (u : Nat) (sk : String) (t : Int)
    (h : openInvariant db) :
    openInvariant (start_study_session db u sk t).2 := by
  unfold start_study_session
  cases hf : findOpenSession db u sk with
  | some r => exact h
  | none =>
    intro u' s'
    unfold openCount
    simp only [List.filter_append, List.length_append]
    by_cases hrow : isOpenFor u' s'
        { id := db.nextId, user_id := u, skill_id := sk, start_time := t,
          end_time := none, duration_minutes := none } = true
    · have heq : u = u' ∧ sk = s' := by
        simpa [isOpenFor] using hrow
      obtain ⟨h1, h2⟩ := heq
      subst h1
      subst h2
      have hnil : db.sessions.filter (isOpenFor u sk) = [] := by
        rw [List.filter_eq_nil_iff]
        intro x hx
        unfold findOpenSession at hf
        have := List.find?_eq_none.mp hf x hx
        simpa using this
      rw [hnil]
      simp [hrow]
    · have hfalse : isOpenFor u' s'
          { id := db.nextId, user_id := u, skill_id := sk, start_time := t,
            end_time := none, duration_minutes := none } = false := by
        revert hrow
        cases isOpenFor u' s'
            { id := db.nextId, user_id := u, skill_id := sk, start_time := t,
              end_time := none, duration_minutes := none } <;> simp
      simp only [List.filter_cons, hfalse]
      simpa [openCount] using h u' s'

theorem end_sessions_shape (db : DB) (sid : Nat) (t : Int) :
    (end_study_session db sid t).2.sessions = db.sessions
    ∨ ∃ d : Int, (end_study_session db sid t).2.sessions
        = db.sessions.map (closeRow sid t d) := by
  unfold end_study_session
  cases hf : db.sessions.find? (fun s => s.id == sid && s.end_time == none) with
  | none => left; rfl
  | some s =>
    right
    refine ⟨(t - s.start_time).tdiv 60, ?_⟩
    dsimp only
    cases hb : db.badges.find? (fun b => b.user_id == s.user_id) with
    | some b => rfl
    | none => rfl

theorem end_preserves_inv (db : DB) (sid : Nat) (t : Int)
    (h : openInvariant db) :
    openInvariant (end_study_session db sid t).2 := by
  intro u' s'
  unfold openCount
  rcases end_sessions_shape db sid t with heq | ⟨d, heq⟩
  · rw [heq]
    exact h u' s'
  · rw [heq]
    exact le_trans
      (length_filter_map_le _ _ (fun r => isOpenFor_closeRow u' s' sid t d r) db.sessions)
      (h u' s')

theorem applyOp_preserves_inv (db : DB) (op : Op) (h : openInvariant db) :
    openInvariant (applyOp db op) := by
  cases op with
  | start u sk t => exact start_preserves_inv db u sk t h
  | stop sid t => exact end_preserves_inv db sid t h

theorem runOps_preserves_inv (db : DB) (h : openInvariant db) (ops : List Op) :
    openInvariant (runOps db ops) := by
  induction ops generalizing db with
  | nil => exact h
  | cons op ops ih => exact ih _ (applyOp_preserves_inv db op h)

theorem end_eval_none (db : DB) (sid : Nat) (t : Int)
    (hf : db.sessions.find? (fun x => x.id == sid && x.end_time == none) = none) :
    end_study_session db sid t = (EndResult.noActiveSession, db) := by
  unfold end_study_session
  rw [hf]

theorem end_eval_found (db : DB) (sid : Nat) (t : Int) (s : StudySession)
    (b : BadgeRecord)
    (hf : db.sessions.find? (fun x => x.id == sid && x.end_time == none) = some s)
    (hb : db.badges.find? (fun x => x.user_id == s.user_id) = some b) :
    end_study_session db sid t =
      (EndResult.ok ((t - s.start_time).tdiv 60),
       { db with
           sessions := db.sessions.map (closeRow sid t ((t - s.start_time).tdiv 60)),
           badges := db.badges.map (updateBadgeRow s.user_id
             (b.total_study_minutes + (t - s.start_time).tdiv 60)
             (get_badge_for_minutes
               (b.total_study_minutes + (t - s.start_time).tdiv 60)) t) }) := by
  unfold end_study_session
  rw [hf]
  dsimp only
  rw [hb]

theorem end_eval_no_badge (db : DB) (sid : Nat) (t : Int) (s : StudySession)
    (hf : db.sessions.find? (fun x => x.id == sid && x.end_time == none) = some s)
    (hb : db.badges.find? (fun x => x.user_id == s.user_id) = none) :
    end_study_session db sid t =
      (EndResult.ok ((t - s.start_time).tdiv 60),
       { db with
           sessions := db.sessions.map (closeRow sid t ((t - s.start_time).tdiv 60)) }) := by
  unfold end_study_session
  rw [hf]
  dsimp only
  rw [hb]

/-- C1: for every (user, skill) pair and every sequence of start and end
operations run from a state satisfying the at-most-one-open-session
invariant, the invariant keeps holding; start fails with the already-active
rejection, creating no row, whenever an open session exists for the pair, and
on success appends exactly one new row, which is open for that pair. -/
theorem start_session_uniqueness (db : DB) (u : Nat) (sk : String) (t : Int)
    (hInv : openInvariant db) :
    (∀ ops : List Op, openInvariant (runOps db ops))
    ∧ ((findOpenSession db u sk).isSome = true →
        start_study_session db u sk t = (StartResult.alreadyActive, db))
    ∧ (findOpenSession db u sk = none →
        start_study_session db u sk t =
          (StartResult.ok db.nextId,
           { db with
               sessions := db.sessions ++
                 [{ id := db.nextId, user_id := u, skill_id := sk, start_time := t,
                    end_time := none, duration_minutes := none }],
               nextId := db.nextId + 1 })
        ∧ isOpenFor u sk
            { id := db.nextId, user_id := u, skill_id := sk, start_time := t,
              end_time := none, duration_minutes := none } = true) := by
  refine ⟨runOps_preserves_inv db hInv, ?_, ?_⟩
  · intro hsome
    unfold start_study_session
    cases hf : findOpenSession db u sk with
    | some r => rfl
    | none => rw [hf] at hsome; simp at hsome
  · intro hnone
    constructor
    · unfold start_study_session
      rw [hnone]
    · simp [isOpenFor]

theorem start_session_uniqueness_witness :
    openInvariant emptyDB
    ∧ ((∀ ops : List Op, openInvariant (runOps emptyDB ops))
        ∧ ((findOpenSession emptyDB 7 "python").isSome = true →
            start_study_session emptyDB 7 "python" 100 =
              (StartResult.alreadyActive, emptyDB))
        ∧ (findOpenSession emptyDB 7 "python" = none →
            start_study_session emptyDB 7 "python" 100 =
              (StartResult.ok emptyDB.nextId,
               { emptyDB with
                   sessions := emptyDB.sessions ++
                     [{ id := emptyDB.nextId, user_id := 7, skill_id := "python",
                        start_time := 100, end_time := none,
                        duration_minutes := none }],
                   nextId := emptyDB.nextId + 1 })
            ∧ isOpenFor 7 "python"
                { id := emptyDB.nextId, user_id := 7, skill_id := "python",
                  start_time := 100, end_time := none,
                  duration_minutes := none } = true)) :=
  ⟨emptyDB_inv, start_session_uniqueness emptyDB 7 "python" 100 emptyDB_inv⟩

/-- C8: when no open session exists for the given session id, end fails with
the no-active-session rejection and returns the state unchanged: no session
row is modified and no badge record is updated. -/
theorem end_session_no_active_rejects (db : DB) (sid : Nat) (t : Int)
    (hf : db.sessions.find? (fun x => x.id == sid && x.end_time == none) = none) :
    end_study_session db sid t = (EndResult.noActiveSession, db) :=
  end_eval_none db sid t hf

theorem end_session_no_active_rejects_witness :
    dbOneClosed.sessions.find? (fun x => x.id == 1 && x.end_time == none) = none
    ∧ end_study_session dbOneClosed 1 90 = (EndResult.noActiveSession, dbOneClosed) :=
  ⟨by decide, end_session_no_active_rejects dbOneClosed 1 90 (by decide)⟩

/-- C4: ending an open session at a time at or after its start sets the
result and the stored duration to the floor of elapsed seconds over 60,
which is never negative, and the call succeeds (also at zero elapsed
seconds). -/
theorem end_session_floor_duration (db : DB) (sid : Nat) (t : Int)
    (s : StudySession)
    (hf : db.sessions.find? (fun x => x.id == sid && x.end_time == none) = some s)
    (hle : s.start_time ≤ t) :
    (end_study_session db sid t).1 = EndResult.ok ((t - s.start_time).tdiv 60)
    ∧ (t - s.start_time).tdiv 60 = Int.fdiv (t - s.start_time) 60
    ∧ 0 ≤ (t - s.start_time).tdiv 60
    ∧ ∀ row ∈ (end_study_session db sid t).2.sessions,
        row.id = sid →
          row.end_time = some t
          ∧ row.duration_minutes = some ((t - s.start_time).tdiv 60) := by
  have h60 : (0:Int) ≤ 60 := by omega
  have hnum : (0:Int) ≤ t - s.start_time := by omega
  have hfd : (t - s.start_time).tdiv 60 = Int.fdiv (t - s.start_time) 60 := by
    rw [Int.tdiv_eq_ediv hnum h60, Int.fdiv_eq_ediv _ h60]
  have hdur : (0:Int) ≤ (t - s.start_time).tdiv 60 := by
    rw [Int.tdiv_eq_ediv hnum h60]
    exact Int.ediv_nonneg hnum h60
  have hres : (end_study_session db sid t).1
      = EndResult.ok ((t - s.start_time).tdiv 60) := by
    cases hb : db.badges.find? (fun x => x.user_id == s.user_id) with
    | some b => rw [end_eval_found db sid t s b hf hb]
    | none => rw [end_eval_no_badge db sid t s hf hb]
  have hsessions : (end_study_session db sid t).2.sessions
      = db.sessions.map (closeRow sid t ((t - s.start_time).tdiv 60)) := by
    cases hb : db.badges.find? (fun x => x.user_id == s.user_id) with
    | some b => rw [end_eval_found db sid t s b hf hb]
    | none => rw [end_eval_no_badge db sid t s hf hb]
  refine ⟨hres, hfd, hdur, ?_⟩
  intro row hrow hid
  rw [hsessions] at hrow
  rcases List.mem_map.mp hrow with ⟨pre, hpre, hrw⟩
  by_cases hpid : pre.id = sid
  · rw [← hrw]
    unfold closeRow
    rw [if_pos hpid]
    exact ⟨rfl, rfl⟩
  · exfalso
    apply hpid
    rw [← hrw] at hid
    unfold closeRow at hid
    rw [if_neg hpid] at hid
    exact hid

theorem end_session_floor_duration_witness :
    (dbOneOpen.sessions.find? (fun x => x.id == 1 && x.end_time == none)
        = some rowOpen
      ∧ rowOpen.start_time ≤ 90
      ∧ ((90:Int) - rowOpen.start_time).tdiv 60 = 1
      ∧ (end_study_session dbOneOpen 1 90).1
          = EndResult.ok (((90:Int) - rowOpen.start_time).tdiv 60))
    ∧ (rowOpen.start_time ≤ 0
      ∧ ((0:Int) - rowOpen.start_time).tdiv 60 = 0
      ∧ (end_study_session dbOneOpen 1 0).1
          = EndResult.ok (((0:Int) - rowOpen.start_time).tdiv 60)) :=
  ⟨⟨by decide, by decide, by decide,
    (end_session_floor_duration dbOneOpen 1 90 rowOpen (by decide) (by decide)).1⟩,
   ⟨by decide, by decide,
    (end_session_floor_duration dbOneOpen 1 0 rowOpen (by decide) (by decide)).1⟩⟩

/-- C5: when every session owner has a badge record, a single end operation
either leaves the whole state unchanged (the failure case) or applies both
changes together: the session rows are closed and the badge rows carry the
new total with the recomputed badge.  In the model the whole call is one
state transition, mirroring the single commit in the source. -/
theorem end_session_badge_atomic (db : DB) (sid : Nat) (t : Int)
    (hAll : ∀ r ∈ db.sessions,
      (db.badges.find? (fun x => x.user_id == r.user_id)).isSome = true) :
    (end_study_session db sid t).2 = db
    ∨ ∃ s b,
        db.sessions.find? (fun x => x.id == sid && x.end_time == none) = some s
        ∧ db.badges.find? (fun x => x.user_id == s.user_id) = some b
        ∧ (end_study_session db sid t).2 =
          { db with
              sessions := db.sessions.map (closeRow sid t ((t - s.start_time).tdiv 60)),
              badges := db.badges.map (updateBadgeRow s.user_id
                (b.total_study_minutes + (t - s.start_time).tdiv 60)
                (get_badge_for_minutes
                  (b.total_study_minutes + (t - s.start_time).tdiv 60)) t) } := by
  cases hf : db.sessions.find? (fun x => x.id == sid && x.end_time == none) with
  | none =>
    left
    rw [end_eval_none db sid t hf]
  | some s =>
    right
    have hmem : s ∈ db.sessions := List.mem_of_find?_eq_some hf
    have hsome := hAll s hmem
    rcases Option.isSome_iff_exists.mp hsome with ⟨b, hb⟩
    exact ⟨s, b, rfl, hb, by rw [end_eval_found db sid t s b hf hb]⟩

theorem end_session_badge_atomic_witness :
    (∀ r ∈ dbOneOpen.sessions,
      (dbOneOpen.badges.find? (fun x => x.user_id == r.user_id)).isSome = true)
    ∧ ((end_study_session dbOneOpen 1 90).2 = dbOneOpen
      ∨ ∃ s b,
          dbOneOpen.sessions.find? (fun x => x.id == 1 && x.end_time == none)
            = some s
          ∧ dbOneOpen.badges.find? (fun x => x.user_id == s.user_id) = some b
          ∧ (end_study_session dbOneOpen 1 90).2 =
            { dbOneOpen with
                sessions := dbOneOpen.sessions.map
                  (closeRow 1 90 (((90:Int) - s.start_time).tdiv 60)),
                badges := dbOneOpen.badges.map
                  (updateBadgeRow s.user_id
                    (b.total_study_minutes + ((90:Int) - s.start_time).tdiv 60)
                    (get_badge_for_minutes
                      (b.total_study_minutes + ((90:Int) - s.start_time).tdiv 60))
                    90) }) :=
  ⟨by decide, end_session_badge_atomic dbOneOpen 1 90 (by decide)⟩

/-- C6 counterexample: ending the open session of a user with no badge
record returns success with the computed duration and leaves the badge store
untouched; no error of any kind is produced. -/
theorem end_session_missing_badge_counterexample :
    (end_study_session dbNoBadge 1 60).1 = EndResult.ok 1
    ∧ (end_study_session dbNoBadge 1 60).2.badges = []
    ∧ EndResult.ok 1 ≠ EndResult.noActiveSession := by
  decide

/-- C6 amended: when the session owner has no badge record, the badge
recomputation step is silently skipped, not surfaced as an error: the end
operation still closes the session rows, reports success with the computed
duration, and leaves the badge store unchanged. -/
theorem end_session_skips_missing_badge (db : DB) (sid : Nat) (t : Int)
    (s : StudySession)
    (hf : db.sessions.find? (fun x => x.id == sid && x.end_time == none) = some s)
    (hb : db.badges.find? (fun x => x.user_id == s.user_id) = none) :
    (end_study_session db sid t).1 = EndResult.ok ((t - s.start_time).tdiv 60)
    ∧ (end_study_session db sid t).2.badges = db.badges
    ∧ (end_study_session db sid t).2.sessions
        = db.sessions.map (closeRow sid t ((t - s.start_time).tdiv 60)) := by
  rw [end_eval_no_badge db sid t s hf hb]
  exact ⟨rfl, rfl, rfl⟩

theorem end_session_skips_missing_badge_witness :
    dbNoBadge.sessions.find? (fun x => x.id == 1 && x.end_time == none)
      = some rowOpen
    ∧ dbNoBadge.badges.find? (fun x => x.user_id == rowOpen.user_id) = none
    ∧ ((end_study_session dbNoBadge 1 60).1
        = EndResult.ok (((60:Int) - rowOpen.start_time).tdiv 60)
      ∧ (end_study_session dbNoBadge 1 60).2.badges = dbNoBadge.badges
      ∧ (end_study_session dbNoBadge 1 60).2.sessions
          = dbNoBadge.sessions.map
              (closeRow 1 60 (((60:Int) - rowOpen.start_time).tdiv 60))) :=
  ⟨by decide, by decide,
   end_session_skips_missing_badge dbNoBadge 1 60 rowOpen (by decide) (by decide)⟩

/-- C7 counterexample: ending a session whose stored start time lies after
the end instant yields a negative duration that is added to the total: user
1 starts at total 100 and ends at total 98, with no rejection. -/
theorem end_session_negative_delta_counterexample :
    (end_study_session dbClockBack 1 0).1 = EndResult.ok (-2)
    ∧ (end_study_session dbClockBack 1 0).2.badges
        = [{ user_id := 1, total_study_minutes := 98, current_badge := "Entry",
             badge_updated_at := 0 }]
    ∧ (98:Int) < 100 := by
  decide

/-- C7 amended: a negative computed duration is not rejected; there is no
guard of any kind, the end operation succeeds and the negative delta is
added to the total of the owning user, which therefore decreases. -/
theorem end_session_negative_delta_added (db : DB) (sid : Nat) (t : Int)
    (s : StudySession) (b : BadgeRecord)
    (hf : db.sessions.find? (fun x => x.id == sid && x.end_time == none) = some s)
    (hb : db.badges.find? (fun x => x.user_id == s.user_id) = some b)
    (hneg : (t - s.start_time).tdiv 60 < 0) :
    (end_study_session db sid t).1 = EndResult.ok ((t - s.start_time).tdiv 60)
    ∧ ∀ x ∈ (end_study_session db sid t).2.badges,
        x.user_id = s.user_id →
          x.total_study_minutes
            = b.total_study_minutes + (t - s.start_time).tdiv 60
          ∧ x.total_study_minutes < b.total_study_minutes := by
  rw [end_eval_found db sid t s b hf hb]
  refine ⟨rfl, ?_⟩
  intro x hx hxid
  rcases List.mem_map.mp hx with ⟨pre, hpre, hrw⟩
  by_cases hpid : pre.user_id = s.user_id
  · rw [← hrw]
    unfold updateBadgeRow
    rw [if_pos hpid]
    refine ⟨rfl, ?_⟩
    show b.total_study_minutes + (t - s.start_time).tdiv 60 < b.total_study_minutes
    omega
  · exfalso
    apply hpid
    rw [← hrw] at hxid
    unfold updateBadgeRow at hxid
    rw [if_neg hpid] at hxid
    exact hxid

theorem end_session_negative_delta_added_witness :
    dbClockBack.sessions.find? (fun x => x.id == 1 && x.end_time == none)
      = some { id := 1, user_id := 1, skill_id := "python", start_time := 120,
               end_time := none, duration_minutes := none }
    ∧ dbClockBack.badges.find? (fun x => x.user_id == 1)
      = some { user_id := 1, total_study_minutes := 100, current_badge := "Entry",
               badge_updated_at := 0 }
    ∧ ((0:Int) - 120).tdiv 60 < 0
    ∧ ((end_study_session dbClockBack 1 0).1
        = EndResult.ok (((0:Int) - 120).tdiv 60)
      ∧ ∀ x ∈ (end_study_session dbClockBack 1 0).2.badges,
          x.user_id = 1 →
            x.total_study_minutes = 100 + ((0:Int) - 120).tdiv 60
            ∧ x.total_study_minutes < 100) :=
  ⟨by decide, by decide, by decide,
   end_session_negative_delta_added dbClockBack 1 0
     { id := 1, user_id := 1, skill_id := "python", start_time := 120,
       end_time := none, duration_minutes := none }
     { user_id := 1, total_study_minutes := 100, current_badge := "Entry",
       badge_updated_at := 0 }
     (by decide) (by decide) (by decide)⟩

/-- C10: whenever the in-process active_study_sessions map holds no entry
for the skill (including when the map was never created), end_study_timer
fails with the no-active-timer message and changes nothing, even if the
Session Store holds an open session for the pair: that session stays open. -/
theorem end_timer_requires_memory_entry (st : AppState) (skill_id : String)
    (t : Int) (h : hasActiveTimer st skill_id = false) :
    end_study_timer st skill_id t = (TimerResult.noActiveTimer, st) := by
  unfold end_study_timer
  cases hm : st.active_study_sessions with
  | none => rfl
  | some m =>
    simp only [hasActiveTimer, hm] at h
    dsimp only
    cases hfind : (m.find? (fun p => p.1 == skill_id)).map Prod.snd with
    | none => rfl
    | some sid =>
      rw [hfind] at h
      simp at h

theorem end_timer_requires_memory_entry_witness :
    hasActiveTimer appStateStale "python" = false
    ∧ (findOpenSession appStateStale.db 1 "python").isSome = true
    ∧ end_study_timer appStateStale "python" 50
        = (TimerResult.noActiveTimer, appStateStale) :=
  ⟨by decide, by decide,
   end_timer_requires_memory_entry appStateStale "python" 50 (by decide)⟩

theorem badge_levels_reverse :
    BADGE_LEVELS.reverse =
      [⟨"Study Master", 36000⟩, ⟨"Study Machine", 30000⟩, ⟨"Grand Master", 24000⟩,
       ⟨"Master", 18000⟩, ⟨"A+ Student", 12000⟩, ⟨"Expert", 7200⟩,
       ⟨"Advanced", 3600⟩, ⟨"Proficient", 1800⟩, ⟨"Intermediate", 900⟩,
       ⟨"Beginner", 300⟩, ⟨"Entry", 60⟩, ⟨"Member", 0⟩] := by rfl

theorem tier_data_0 (t : Int) (hlo : 0 ≤ t) (hhi : t < 60) :
    get_badge_for_minutes t = "Member"
    ∧ highestTierLE t = ⟨"Member", 0⟩
    ∧ tierIdx t = 0 := by
  have n1 : ¬ ((60:Int) ≤ t) := by omega
  have n2 : ¬ ((300:Int) ≤ t) := by omega
  have n3 : ¬ ((900:Int) ≤ t) := by omega
  have n4 : ¬ ((1800:Int) ≤ t) := by omega
  have n5 : ¬ ((3600:Int) ≤ t) := by omega
  have n6 : ¬ ((7200:Int) ≤ t) := by omega
  have n7 : ¬ ((12000:Int) ≤ t) := by omega
  have n8 : ¬ ((18000:Int) ≤ t) := by omega
  have n9 : ¬ ((24000:Int) ≤ t) := by omega
  have n10 : ¬ ((30000:Int) ≤ t) := by omega
  have n11 : ¬ ((36000:Int) ≤ t) := by omega
  refine ⟨?_, ?_, ?_⟩
  · simp [get_badge_for_minutes, badge_levels_reverse, List.find?, defaultBadge,
      BADGE_LEVELS, hlo, n1, n2, n3, n4, n5, n6, n7, n8, n9, n10, n11]
  · simp [highestTierLE, BADGE_LEVELS, List.filter, List.foldl,
      hlo, n1, n2, n3, n4, n5, n6, n7, n8, n9, n10, n11]
  · simp [tierIdx, BADGE_LEVELS, List.filter,
      hlo, n1, n2, n3, n4, n5, n6, n7, n8, n9, n10, n11]

theorem tier_data_1 (t : Int) (hlo : 60 ≤ t) (hhi : t < 300) :
    get_badge_for_minutes t = "Entry"
    ∧ highestTierLE t = ⟨"Entry", 60⟩
    ∧ tierIdx t = 1 := by
  have k0 : (0:Int) ≤ t := by omega
  have n2 : ¬ ((300:Int) ≤ t) := by omega
  have n3 : ¬ ((900:Int) ≤ t) := by omega
  have n4 : ¬ ((1800:Int) ≤ t) := by omega
  have n5 : ¬ ((3600:Int) ≤ t) := by omega
  have n6 : ¬ ((7200:Int) ≤ t) := by omega
  have n7 : ¬ ((12000:Int) ≤ t) := by omega
  have n8 : ¬ ((18000:Int) ≤ t) := by omega
  have n9 : ¬ ((24000:Int) ≤ t) := by omega
  have n10 : ¬ ((30000:Int) ≤ t) := by omega
  have n11 : ¬ ((36000:Int) ≤ t) := by omega
  refine ⟨?_, ?_, ?_⟩
  · simp [get_badge_for_minutes, badge_levels_reverse, List.find?, defaultBadge,
      BADGE_LEVELS, hlo, k0, n2, n3, n4, n5, n6, n7, n8, n9, n10, n11]
  · simp [highestTierLE, BADGE_LEVELS, List.filter, List.foldl,
      hlo, k0, n2, n3, n4, n5, n6, n7, n8, n9, n10, n11]
  · simp [tierIdx, BADGE_LEVELS, List.filter,
      hlo, k0, n2, n3, n4, n5, n6, n7, n8, n9, n10, n11]

theorem tier_data_2 (t : Int) (hlo : 300 ≤ t) (hhi : t < 900) :
    get_badge_for_minutes t = "Beginner"
    ∧ highestTierLE t = ⟨"Beginner", 300⟩
    ∧ tierIdx t = 2 := by
  have k0 : (0:Int) ≤ t := by omega
  have k1 : (60:Int) ≤ t := by omega
  have n3 : ¬ ((900:Int) ≤ t) := by omega
  have n4 : ¬ ((1800:Int) ≤ t) := by omega
  have n5 : ¬ ((3600:Int) ≤ t) := by omega
  have n6 : ¬ ((7200:Int) ≤ t) := by omega
  have n7 : ¬ ((12000:Int) ≤ t) := by omega
  have n8 : ¬ ((18000:Int) ≤ t) := by omega
  have n9 : ¬ ((24000:Int) ≤ t) := by omega
  have n10 : ¬ ((30000:Int) ≤ t) := by omega
  have n11 : ¬ ((36000:Int) ≤ t) := by omega
  refine ⟨?_, ?_, ?_⟩
  · simp [get_badge_for_minutes, badge_levels_reverse, List.find?, defaultBadge,
      BADGE_LEVELS, hlo, k0, k1, n3, n4, n5, n6, n7, n8, n9, n10, n11]
  · simp [highestTierLE, BADGE_LEVELS, List.filter, List.foldl,
      hlo, k0, k1, n3, n4, n5, n6, n7, n8, n9, n10, n11]
  · simp [tierIdx, BADGE_LEVELS, List.filter,
      hlo, k0, k1, n3, n4, n5, n6, n7, n8, n9, n10, n11]

theorem tier_data_3 (t : Int) (hlo : 900 ≤ t) (hhi : t < 1800) :
    get_badge_for_minutes t = "Intermediate"
    ∧ highestTierLE t = ⟨"Intermediate", 900⟩
    ∧ tierIdx t = 3 := by
  have k0 : (0:Int) ≤ t := by omega
  have k1 : (60:Int) ≤ t := by omega
  have k2 : (300:Int) ≤ t := by omega
  have n4 : ¬ ((1800:Int) ≤ t) := by omega
  have n5 : ¬ ((3600:Int) ≤ t) := by omega
  have n6 : ¬ ((7200:Int) ≤ t) := by omega
  have n7 : ¬ ((12000:Int) ≤ t) := by omega
  have n8 : ¬ ((18000:Int) ≤ t) := by omega
  have n9 : ¬ ((24000:Int) ≤ t) := by omega
  have n10 : ¬ ((30000:Int) ≤ t) := by omega
  have n11 : ¬ ((36000:Int) ≤ t) := by omega
  refine ⟨?_, ?_, ?_⟩
  · simp [get_badge_for_minutes, badge_levels_reverse, List.find?, defaultBadge,
      BADGE_LEVELS, hlo, k0, k1, k2, n4, n5, n6, n7, n8, n9, n10, n11]
  · simp [highestTierLE, BADGE_LEVELS, List.filter, List.foldl,
      hlo, k0, k1, k2, n4, n5, n6, n7, n8, n9, n10, n11]
  · simp [tierIdx, BADGE_LEVELS, List.filter,
      hlo, k0, k1, k2, n4, n5, n6, n7, n8, n9, n10, n11]

theorem tier_data_4 (t : Int) (hlo : 1800 ≤ t) (hhi : t < 3600) :
    get_badge_for_minutes t = "Proficient"
    ∧ highestTierLE t = ⟨"Proficient", 1800⟩
    ∧ tierIdx t = 4 := by
  have k0 : (0:Int) ≤ t := by omega
  have k1 : (60:Int) ≤ t := by omega
  have k2 : (300:Int) ≤ t := by omega
  have k3 : (900:Int) ≤ t := by omega
  have n5 : ¬ ((3600:Int) ≤ t) := by omega
  have n6 : ¬ ((7200:Int) ≤ t) := by omega
  have n7 : ¬ ((12000:Int) ≤ t) := by omega
  have n8 : ¬ ((18000:Int) ≤ t) := by omega
  have n9 : ¬ ((24000:Int) ≤ t) := by omega
  have n10 : ¬ ((30000:Int) ≤ t) := by omega
  have n11 : ¬ ((36000:Int) ≤ t) := by omega
  refine ⟨?_, ?_, ?_⟩
  · simp [get_badge_for_minutes, badge_levels_reverse, List.find?, defaultBadge,
      BADGE_LEVELS, hlo, k0, k1, k2, k3, n5, n6, n7, n8, n9, n10, n11]
  · simp [highestTierLE, BADGE_LEVELS, List.filter, List.foldl,
      hlo, k0, k1, k2, k3, n5, n6, n7, n8, n9, n10, n11]
  · simp [tierIdx, BADGE_LEVELS, List.filter,
      hlo, k0, k1, k2, k3, n5, n6, n7, n8, n9, n10, n11]

theorem tier_data_5 (t : Int) (hlo : 3600 ≤ t) (hhi : t < 7200) :
    get_badge_for_minutes t = "Advanced"
    ∧ highestTierLE t = ⟨"Advanced", 3600⟩
    ∧ tierIdx t = 5 := by
  have k0 : (0:Int) ≤ t := by omega
  have k1 : (60:Int) ≤ t := by omega
  have k2 : (300:Int) ≤ t := by omega
  have k3 : (900:Int) ≤ t := by omega
  have k4 : (1800:Int) ≤ t := by omega
  have n6 : ¬ ((7200:Int) ≤ t) := by omega
  have n7 : ¬ ((12000:Int) ≤ t) := by omega
  have n8 : ¬ ((18000:Int) ≤ t) := by omega
  have n9 : ¬ ((24000:Int) ≤ t) := by omega
  have n10 : ¬ ((30000:Int) ≤ t) := by omega
  have n11 : ¬ ((36000:Int) ≤ t) := by omega
  refine ⟨?_, ?_, ?_⟩
  · simp [get_badge_for_minutes, badge_levels_reverse, List.find?, defaultBadge,
      BADGE_LEVELS, hlo, k0, k1, k2, k3, k4, n6, n7, n8, n9, n10, n11]
  · simp [highestTierLE, BADGE_LEVELS, List.filter, List.foldl,
      hlo, k0, k1, k2, k3, k4, n6, n7, n8, n9, n10, n11]
  · simp [tierIdx, BADGE_LEVELS, List.filter,
      hlo, k0, k1, k2, k3, k4, n6, n7, n8, n9, n10, n11]

theorem tier_data_6 (t : Int) (hlo : 7200 ≤ t) (hhi : t < 12000) :
    get_badge_for_minutes t = "Expert"
    ∧ highestTierLE t = ⟨"Expert", 7200⟩
    ∧ tierIdx t = 6 := by
  have k0 : (0:Int) ≤ t := by omega
  have k1 : (60:Int) ≤ t := by omega
  have k2 : (300:Int) ≤ t := by omega
  have k3 : (900:Int) ≤ t := by omega
  have k4 : (1800:Int) ≤ t := by omega
  have k5 : (3600:Int) ≤ t := by omega
  have n7 : ¬ ((12000:Int) ≤ t) := by omega
  have n8 : ¬ ((18000:Int) ≤ t) := by omega
  have n9 : ¬ ((24000:Int) ≤ t) := by omega
  have n10 : ¬ ((30000:Int) ≤ t) := by omega
  have n11 : ¬ ((36000:Int) ≤ t) := by omega
  refine ⟨?_, ?_, ?_⟩
  · simp [get_badge_for_minutes, badge_levels_reverse, List.find?, defaultBadge,
      BADGE_LEVELS, hlo, k0, k1, k2, k3, k4, k5, n7, n8, n9, n10, n11]
  · simp [highestTierLE, BADGE_LEVELS, List.filter, List.foldl,
      hlo, k0, k1, k2, k3, k4, k5, n7, n8, n9, n10, n11]
  · simp [tierIdx, BADGE_LEVELS, List.filter,
      hlo, k0, k1, k2, k3, k4, k5, n7, n8, n9, n10, n11]

theorem tier_data_7 (t : Int) (hlo : 12000 ≤ t) (hhi : t < 18000) :
    get_badge_for_minutes t = "A+ Student"
    ∧ highestTierLE t = ⟨"A+ Student", 12000⟩
    ∧ tierIdx t = 7 := by
  have k0 : (0:Int) ≤ t := by omega
  have k1 : (60:Int) ≤ t := by omega
  have k2 : (300:Int) ≤ t := by omega
  have k3 : (900:Int) ≤ t := by omega
  have k4 : (1800:Int) ≤ t := by omega
  have k5 : (3600:Int) ≤ t := by omega
  have k6 : (7200:Int) ≤ t := by omega
  have n8 : ¬ ((18000:Int) ≤ t) := by omega
  have n9 : ¬ ((24000:Int) ≤ t) := by omega
  have n10 : ¬ ((30000:Int) ≤ t) := by omega
  have n11 : ¬ ((36000:Int) ≤ t) := by omega
  refine ⟨?_, ?_, ?_⟩
  · simp [get_badge_for_minutes, badge_levels_reverse, List.find?, defaultBadge,
      BADGE_LEVELS, hlo, k0, k1, k2, k3, k4, k5, k6, n8, n9, n10, n11]
  · simp [highestTierLE, BADGE_LEVELS, List.filter, List.foldl,
      hlo, k0, k1, k2, k3, k4, k5, k6, n8, n9, n10, n11]
  · simp [tierIdx, BADGE_LEVELS, List.filter,
      hlo, k0, k1, k2, k3, k4, k5, k6, n8, n9, n10, n11]

theorem tier_data_8 (t : Int) (hlo : 18000 ≤ t) (hhi : t < 24000) :
    get_badge_for_minutes t = "Master"
    ∧ highestTierLE t = ⟨"Master", 18000⟩
    ∧ tierIdx t = 8 := by
  have k0 : (0:Int) ≤ t := by omega
  have k1 : (60:Int) ≤ t := by omega
  have k2 : (300:Int) ≤ t := by omega
  have k3 : (900:Int) ≤ t := by omega
  have k4 : (1800:Int) ≤ t := by omega
  have k5 : (3600:Int) ≤ t := by omega
  have k6 : (7200:Int) ≤ t := by omega
  have k7 : (12000:Int) ≤ t := by omega
  have n9 : ¬ ((24000:Int) ≤ t) := by omega
  have n10 : ¬ ((30000:Int) ≤ t) := by omega
  have n11 : ¬ ((36000:Int) ≤ t) := by omega
  refine ⟨?_, ?_, ?_⟩
  · simp [get_badge_for_minutes, badge_levels_reverse, List.find?, defaultBadge,
      BADGE_LEVELS, hlo, k0, k1, k2, k3, k4, k5, k6, k7, n9, n10, n11]
  · simp [highestTierLE, BADGE_LEVELS, List.filter, List.foldl,
      hlo, k0, k1, k2, k3, k4, k5, k6, k7, n9, n10, n11]
  · simp [tierIdx, BADGE_LEVELS, List.filter,
      hlo, k0, k1, k2, k3, k4, k5, k6, k7, n9, n10, n11]

theorem tier_data_9 (t : Int) (hlo : 24000 ≤ t) (hhi : t < 30000) :
    get_badge_for_minutes t = "Grand Master"
    ∧ highestTierLE t = ⟨"Grand Master", 24000⟩
    ∧ tierIdx t = 9 := by
  have k0 : (0:Int) ≤ t := by omega
  have k1 : (60:Int) ≤ t := by omega
  have k2 : (300:Int) ≤ t := by omega
  have k3 : (900:Int) ≤ t := by omega
  have k4 : (1800:Int) ≤ t := by omega
  have k5 : (3600:Int) ≤ t := by omega
  have k6 : (7200:Int) ≤ t := by omega
  have k7 : (12000:Int) ≤ t := by omega
  have k8 : (18000:Int) ≤ t := by omega
  have n10 : ¬ ((30000:Int) ≤ t) := by omega
  have n11 : ¬ ((36000:Int) ≤ t) := by omega
  refine ⟨?_, ?_, ?_⟩
  · simp [get_badge_for_minutes, badge_levels_reverse, List.find?, defaultBadge,
      BADGE_LEVELS, hlo, k0, k1, k2, k3, k4, k5, k6, k7, k8, n10, n11]
  · simp [highestTierLE, BADGE_LEVELS, List.filter, List.foldl,
      hlo, k0, k1, k2, k3, k4, k5, k6, k7, k8, n10, n11]
  · simp [tierIdx, BADGE_LEVELS, List.filter,
      hlo, k0, k1, k2, k3, k4, k5, k6, k7, k8, n10, n11]

theorem tier_data_10 (t : Int) (hlo : 30000 ≤ t) (hhi : t < 36000) :
    get_badge_for_minutes t = "Study Machine"
    ∧ highestTierLE t = ⟨"Study Machine", 30000⟩
    ∧ tierIdx t = 10 := by
  have k0 : (0:Int) ≤ t := by omega
  have k1 : (60:Int) ≤ t := by omega
  have k2 : (300:Int) ≤ t := by omega
  have k3 : (900:Int) ≤ t := by omega
  have k4 : (1800:Int) ≤ t := by omega
  have k5 : (3600:Int) ≤ t := by omega
  have k6 : (7200:Int) ≤ t := by omega
  have k7 : (12000:Int) ≤ t := by omega
  have k8 : (18000:Int) ≤ t := by omega
  have k9 : (24000:Int) ≤ t := by omega
  have n11 : ¬ ((36000:Int) ≤ t) := by omega
  refine ⟨?_, ?_, ?_⟩
  · simp [get_badge_for_minutes, badge_levels_reverse, List.find?, defaultBadge,
      BADGE_LEVELS, hlo, k0, k1, k2, k3, k4, k5, k6, k7, k8, k9, n11]
  · simp [highestTierLE, BADGE_LEVELS, List.filter, List.foldl,
      hlo, k0, k1, k2, k3, k4, k5, k6, k7, k8, k9, n11]
  · simp [tierIdx, BADGE_LEVELS, List.filter,
      hlo, k0, k1, k2, k3, k4, k5, k6, k7, k8, k9, n11]

theorem tier_data_11 (t : Int) (hlo : 36000 ≤ t) :
    get_badge_for_minutes t = "Study Master"
    ∧ highestTierLE t = ⟨"Study Master", 36000⟩
    ∧ tierIdx t = 11 := by
  have k0 : (0:Int) ≤ t := by omega
  have k1 : (60:Int) ≤ t := by omega
  have k2 : (300:Int) ≤ t := by omega
  have k3 : (900:Int) ≤ t := by omega
  have k4 : (1800:Int) ≤ t := by omega
  have k5 : (3600:Int) ≤ t := by omega
  have k6 : (7200:Int) ≤ t := by omega
  have k7 : (12000:Int) ≤ t := by omega
  have k8 : (18000:Int) ≤ t := by omega
  have k9 : (24000:Int) ≤ t := by omega
  have k10 : (30000:Int) ≤ t := by omega
  refine ⟨?_, ?_, ?_⟩
  · simp [get_badge_for_minutes, badge_levels_reverse, List.find?, defaultBadge,
      BADGE_LEVELS, hlo, k0, k1, k2, k3, k4, k5, k6, k7, k8, k9, k10]
  · simp [highestTierLE, BADGE_LEVELS, List.filter, List.foldl,
      hlo, k0, k1, k2, k3, k4, k5, k6, k7, k8, k9, k10]
  · simp [tierIdx, BADGE_LEVELS, List.filter,
      hlo, k0, k1, k2, k3, k4, k5, k6, k7, k8, k9, k10]


theorem progress_eval_generic (db : DB) (u : Nat) (r : BadgeRecord) (i : Nat)
    (name nextName : String) (mi mi1 : Int)
    (hfind : db.badges.find? (fun b => b.user_id == u) = some r)
    (hbadge : r.current_badge = name)
    (hidx : findLevelIndex name = i)
    (hlt : i < BADGE_LEVELS.length - 1)
    (hlev : (BADGE_LEVELS[i]?).getD ⟨"", 0⟩ = ⟨name, mi⟩)
    (hlev1 : (BADGE_LEVELS[i + 1]?).getD ⟨"", 0⟩ = ⟨nextName, mi1⟩)
    (hrange : mi < mi1)
    (htlt : r.total_study_minutes < mi1) :
    get_study_badge db u =
      { total_minutes := r.total_study_minutes,
        current_badge := name,
        next_badge := nextName,
        minutes_to_next_badge := mi1 - r.total_study_minutes,
        progress_percent :=
          min 100 (pyPercentFloat (r.total_study_minutes - mi) (mi1 - mi)) } := by
  have hstats : get_user_study_stats db u =
      { total_minutes := r.total_study_minutes, current_badge := name,
        next_badge := nextName,
        minutes_to_next_badge := mi1 - r.total_study_minutes } := by
    unfold get_user_study_stats
    rw [hfind]
    dsimp only
    rw [hbadge, hidx, if_pos hlt, hlev1]
    dsimp only
    congr 1
    omega
  unfold get_study_badge
  rw [hstats]
  dsimp only
  rw [if_pos (by omega : (0:Int) < mi1 - r.total_study_minutes), hidx, hlev,
    if_pos hlt, hlev1]
  dsimp only
  rw [if_pos (by omega : (0:Int) < mi1 - mi)]

theorem pyPercentFloat_diverges_from_exact_trunc :
    pyPercentFloat 174 600 = 28 ∧ ((174:Int) * 100).tdiv 600 = 29 := by
  decide

theorem pyPercentFloat_exact_at_half :
    pyPercentFloat 90 240 = 37 := by
  decide

/-- C3: for every non-negative total of minutes, the badge lookup returns
the title of the badge table entry with the highest threshold that is ≤ the
total, thresholds being inclusive lower bounds: a total of 59 yields the
0-threshold tier and a total of 60 yields the 60-threshold tier. -/
theorem badge_lookup_highest_threshold (t : Int) (h0 : 0 ≤ t) :
    get_badge_for_minutes t = (highestTierLE t).title
    ∧ get_badge_for_minutes 59 = "Member"
    ∧ get_badge_for_minutes 60 = "Entry" := by
  refine ⟨?_, by decide, by decide⟩
  rcases (by omega :
      (0 ≤ t ∧ t < 60) ∨
      (60 ≤ t ∧ t < 300) ∨
      (300 ≤ t ∧ t < 900) ∨
      (900 ≤ t ∧ t < 1800) ∨
      (1800 ≤ t ∧ t < 3600) ∨
      (3600 ≤ t ∧ t < 7200) ∨
      (7200 ≤ t ∧ t < 12000) ∨
      (12000 ≤ t ∧ t < 18000) ∨
      (18000 ≤ t ∧ t < 24000) ∨
      (24000 ≤ t ∧ t < 30000) ∨
      (30000 ≤ t ∧ t < 36000) ∨
      36000 ≤ t) with
    ⟨h1, h2⟩ | ⟨h1, h2⟩ | ⟨h1, h2⟩ | ⟨h1, h2⟩ | ⟨h1, h2⟩ | ⟨h1, h2⟩ | ⟨h1, h2⟩ | ⟨h1, h2⟩ | ⟨h1, h2⟩ | ⟨h1, h2⟩ | ⟨h1, h2⟩ | h1
  · have hd := tier_data_0 t h1 h2
    rw [hd.1, hd.2.1]
  · have hd := tier_data_1 t h1 h2
    rw [hd.1, hd.2.1]
  · have hd := tier_data_2 t h1 h2
    rw [hd.1, hd.2.1]
  · have hd := tier_data_3 t h1 h2
    rw [hd.1, hd.2.1]
  · have hd := tier_data_4 t h1 h2
    rw [hd.1, hd.2.1]
  · have hd := tier_data_5 t h1 h2
    rw [hd.1, hd.2.1]
  · have hd := tier_data_6 t h1 h2
    rw [hd.1, hd.2.1]
  · have hd := tier_data_7 t h1 h2
    rw [hd.1, hd.2.1]
  · have hd := tier_data_8 t h1 h2
    rw [hd.1, hd.2.1]
  · have hd := tier_data_9 t h1 h2
    rw [hd.1, hd.2.1]
  · have hd := tier_data_10 t h1 h2
    rw [hd.1, hd.2.1]
  · have hd := tier_data_11 t h1
    rw [hd.1, hd.2.1]

theorem badge_lookup_highest_threshold_witness :
    (0:Int) ≤ 60
    ∧ (get_badge_for_minutes 60 = (highestTierLE 60).title
      ∧ get_badge_for_minutes 59 = "Member"
      ∧ get_badge_for_minutes 60 = "Entry") :=
  ⟨by decide, badge_lookup_highest_threshold 60 (by decide)⟩

/-- C2 amended: for every user whose stored badge is consistently derived
from a non-negative total below the last threshold (current tier not the
last tier), progress_percent equals
min(100, int((total - current_threshold) / (next_threshold -
current_threshold) * 100)) where the inner expression is evaluated in
binary64 floating point and int() truncates toward zero - not
clamp(0, 100, round(...)); in particular, for total_minutes = 150 the
value is 37 (the exact float 37.5 truncated), not 38. -/
theorem progress_percent_truncates (db : DB) (u : Nat) (r : BadgeRecord)
    (hfind : db.badges.find? (fun b => b.user_id == u) = some r)
    (hcons : r.current_badge = get_badge_for_minutes r.total_study_minutes)
    (h0 : 0 ≤ r.total_study_minutes)
    (hlast : r.total_study_minutes < 36000) :
    (get_study_badge db u).progress_percent
      = min 100
          (pyPercentFloat
            (r.total_study_minutes - currentThreshold r.total_study_minutes)
            (nextThreshold r.total_study_minutes
              - currentThreshold r.total_study_minutes)) := by
  rcases (by omega :
      (0 ≤ r.total_study_minutes ∧ r.total_study_minutes < 60) ∨
      (60 ≤ r.total_study_minutes ∧ r.total_study_minutes < 300) ∨
      (300 ≤ r.total_study_minutes ∧ r.total_study_minutes < 900) ∨
      (900 ≤ r.total_study_minutes ∧ r.total_study_minutes < 1800) ∨
      (1800 ≤ r.total_study_minutes ∧ r.total_study_minutes < 3600) ∨
      (3600 ≤ r.total_study_minutes ∧ r.total_study_minutes < 7200) ∨
      (7200 ≤ r.total_study_minutes ∧ r.total_study_minutes < 12000) ∨
      (12000 ≤ r.total_study_minutes ∧ r.total_study_minutes < 18000) ∨
      (18000 ≤ r.total_study_minutes ∧ r.total_study_minutes < 24000) ∨
      (24000 ≤ r.total_study_minutes ∧ r.total_study_minutes < 30000) ∨
      (30000 ≤ r.total_study_minutes ∧ r.total_study_minutes < 36000)) with
    ⟨h1, h2⟩ | ⟨h1, h2⟩ | ⟨h1, h2⟩ | ⟨h1, h2⟩ | ⟨h1, h2⟩ | ⟨h1, h2⟩ | ⟨h1, h2⟩ | ⟨h1, h2⟩ | ⟨h1, h2⟩ | ⟨h1, h2⟩ | ⟨h1, h2⟩
  · have hd := tier_data_0 r.total_study_minutes h1 h2
    have hbadge : r.current_badge = "Member" := by rw [hcons, hd.1]
    have hcur : currentThreshold r.total_study_minutes = 0 := by
      unfold currentThreshold
      rw [hd.2.2]
      decide
    have hnext : nextThreshold r.total_study_minutes = 60 := by
      unfold nextThreshold
      rw [hd.2.2]
      decide
    rw [progress_eval_generic db u r 0 "Member" "Entry" 0 60 hfind hbadge
      (by rfl) (by decide) (by decide) (by decide) (by decide) h2, hcur, hnext]
  · have hd := tier_data_1 r.total_study_minutes h1 h2
    have hbadge : r.current_badge = "Entry" := by rw [hcons, hd.1]
    have hcur : currentThreshold r.total_study_minutes = 60 := by
      unfold currentThreshold
      rw [hd.2.2]
      decide
    have hnext : nextThreshold r.total_study_minutes = 300 := by
      unfold nextThreshold
      rw [hd.2.2]
      decide
    rw [progress_eval_generic db u r 1 "Entry" "Beginner" 60 300 hfind hbadge
      (by rfl) (by decide) (by decide) (by decide) (by decide) h2, hcur, hnext]
  · have hd := tier_data_2 r.total_study_minutes h1 h2
    have hbadge : r.current_badge = "Beginner" := by rw [hcons, hd.1]
    have hcur : currentThreshold r.total_study_minutes = 300 := by
      unfold currentThreshold
      rw [hd.2.2]
      decide
    have hnext : nextThreshold r.total_study_minutes = 900 := by
      unfold nextThreshold
      rw [hd.2.2]
      decide
    rw [progress_eval_generic db u r 2 "Beginner" "Intermediate" 300 900 hfind hbadge
      (by rfl) (by decide) (by decide) (by decide) (by decide) h2, hcur, hnext]
  · have hd := tier_data_3 r.total_study_minutes h1 h2
    have hbadge : r.current_badge = "Intermediate" := by rw [hcons, hd.1]
    have hcur : currentThreshold r.total_study_minutes = 900 := by
      unfold currentThreshold
      rw [hd.2.2]
      decide
    have hnext : nextThreshold r.total_study_minutes = 1800 := by
      unfold nextThreshold
      rw [hd.2.2]
      decide
    rw [progress_eval_generic db u r 3 "Intermediate" "Proficient" 900 1800 hfind hbadge
      (by rfl) (by decide) (by decide) (by decide) (by decide) h2, hcur, hnext]
  · have hd := tier_data_4 r.total_study_minutes h1 h2
    have hbadge : r.current_badge = "Proficient" := by rw [hcons, hd.1]
    have hcur : currentThreshold r.total_study_minutes = 1800 := by
      unfold currentThreshold
      rw [hd.2.2]
      decide
    have hnext : nextThreshold r.total_study_minutes = 3600 := by
      unfold nextThreshold
      rw [hd.2.2]
      decide
    rw [progress_eval_generic db u r 4 "Proficient" "Advanced" 1800 3600 hfind hbadge
      (by rfl) (by decide) (by decide) (by decide) (by decide) h2, hcur, hnext]
  · have hd := tier_data_5 r.total_study_minutes h1 h2
    have hbadge : r.current_badge = "Advanced" := by rw [hcons, hd.1]
    have hcur : currentThreshold r.total_study_minutes = 3600 := by
      unfold currentThreshold
      rw [hd.2.2]
      decide
    have hnext : nextThreshold r.total_study_minutes = 7200 := by
      unfold nextThreshold
      rw [hd.2.2]
      decide
    rw [progress_eval_generic db u r 5 "Advanced" "Expert" 3600 7200 hfind hbadge
      (by rfl) (by decide) (by decide) (by decide) (by decide) h2, hcur, hnext]
  · have hd := tier_data_6 r.total_study_minutes h1 h2
    have hbadge : r.current_badge = "Expert" := by rw [hcons, hd.1]
    have hcur : currentThreshold r.total_study_minutes = 7200 := by
      unfold currentThreshold
      rw [hd.2.2]
      decide
    have hnext : nextThreshold r.total_study_minutes = 12000 := by
      unfold nextThreshold
      rw [hd.2.2]
      decide
    rw [progress_eval_generic db u r 6 "Expert" "A+ Student" 7200 12000 hfind hbadge
      (by rfl) (by decide) (by decide) (by decide) (by decide) h2, hcur, hnext]
  · have hd := tier_data_7 r.total_study_minutes h1 h2
    have hbadge : r.current_badge = "A+ Student" := by rw [hcons, hd.1]
    have hcur : currentThreshold r.total_study_minutes = 12000 := by
      unfold currentThreshold
      rw [hd.2.2]
      decide
    have hnext : nextThreshold r.total_study_minutes = 18000 := by
      unfold nextThreshold
      rw [hd.2.2]
      decide
    rw [progress_eval_generic db u r 7 "A+ Student" "Master" 12000 18000 hfind hbadge
      (by rfl) (by decide) (by decide) (by decide) (by decide) h2, hcur, hnext]
  · have hd := tier_data_8 r.total_study_minutes h1 h2
    have hbadge : r.current_badge = "Master" := by rw [hcons, hd.1]
    have hcur : currentThreshold r.total_study_minutes = 18000 := by
      unfold currentThreshold
      rw [hd.2.2]
      decide
    have hnext : nextThreshold r.total_study_minutes = 24000 := by
      unfold nextThreshold
      rw [hd.2.2]
      decide
    rw [progress_eval_generic db u r 8 "Master" "Grand Master" 18000 24000 hfind hbadge
      (by rfl) (by decide) (by decide) (by decide) (by decide) h2, hcur, hnext]
  · have hd := tier_data_9 r.total_study_minutes h1 h2
    have hbadge : r.current_badge = "Grand Master" := by rw [hcons, hd.1]
    have hcur : currentThreshold r.total_study_minutes = 24000 := by
      unfold currentThreshold
      rw [hd.2.2]
      decide
    have hnext : nextThreshold r.total_study_minutes = 30000 := by
      unfold nextThreshold
      rw [hd.2.2]
      decide
    rw [progress_eval_generic db u r 9 "Grand Master" "Study Machine" 24000 30000 hfind hbadge
      (by rfl) (by decide) (by decide) (by decide) (by decide) h2, hcur, hnext]
  · have hd := tier_data_10 r.total_study_minutes h1 h2
    have hbadge : r.current_badge = "Study Machine" := by rw [hcons, hd.1]
    have hcur : currentThreshold r.total_study_minutes = 30000 := by
      unfold currentThreshold
      rw [hd.2.2]
      decide
    have hnext : nextThreshold r.total_study_minutes = 36000 := by
      unfold nextThreshold
      rw [hd.2.2]
      decide
    rw [progress_eval_generic db u r 10 "Study Machine" "Study Master" 30000 36000 hfind hbadge
      (by rfl) (by decide) (by decide) (by decide) (by decide) h2, hcur, hnext]


/-- C2 counterexample: at total_minutes = 150 the current tier is the 60
tier and the next is the 300 tier; the code truncates (150-60)/(300-60)*100
= 37.5 to 37, while the claim states round(...) = 38. -/
theorem progress_round_counterexample :
    (get_study_badge dbTotal150 1).progress_percent = 37
    ∧ (get_study_badge dbTotal150 1).progress_percent ≠ 38 := by
  decide

theorem progress_percent_truncates_witness :
    dbTotal150.badges.find? (fun b => b.user_id == 1)
      = some { user_id := 1, total_study_minutes := 150, current_badge := "Entry",
               badge_updated_at := 0 }
    ∧ ("Entry" : String) = get_badge_for_minutes 150
    ∧ (0:Int) ≤ 150
    ∧ (150:Int) < 36000
    ∧ (get_study_badge dbTotal150 1).progress_percent
        = min 100 (pyPercentFloat ((150:Int) - currentThreshold 150)
            (nextThreshold 150 - currentThreshold 150)) :=
  ⟨by decide, by decide, by decide, by decide,
   progress_percent_truncates dbTotal150 1
     { user_id := 1, total_study_minutes := 150, current_badge := "Entry",
       badge_updated_at := 0 }
     (by decide) (by decide) (by decide) (by decide)⟩

/-- C9: every user whose stored badge is the last tier of the badge table
receives the sentinel next badge, zero minutes to the next badge, and
progress 100, whatever the magnitude of the stored total. -/
theorem max_tier_status (db : DB) (u : Nat) (r : BadgeRecord)
    (hfind : db.badges.find? (fun b => b.user_id == u) = some r)
    (hbadge : r.current_badge = "Study Master") :
    (get_study_badge db u).next_badge = "Highest Level Achieved!"
    ∧ (get_study_badge db u).minutes_to_next_badge = 0
    ∧ (get_study_badge db u).progress_percent = 100 := by
  have hstats : get_user_study_stats db u =
      { total_minutes := r.total_study_minutes, current_badge := "Study Master",
        next_badge := "Highest Level Achieved!", minutes_to_next_badge := 0 } := by
    unfold get_user_study_stats
    rw [hfind]
    dsimp only
    rw [hbadge]
    rfl
  unfold get_study_badge
  rw [hstats]
  exact ⟨rfl, rfl, rfl⟩

theorem max_tier_status_witness :
    dbMaxTier.badges.find? (fun b => b.user_id == 1)
      = some { user_id := 1, total_study_minutes := 40000,
               current_badge := "Study Master", badge_updated_at := 0 }
    ∧ ((get_study_badge dbMaxTier 1).next_badge = "Highest Level Achieved!"
      ∧ (get_study_badge dbMaxTier 1).minutes_to_next_badge = 0
      ∧ (get_study_badge dbMaxTier 1).progress_percent = 100) :=
  ⟨by decide,
   max_tier_status dbMaxTier 1
     { user_id := 1, total_study_minutes := 40000,
       current_badge := "Study Master", badge_updated_at := 0 }
     (by decide) (by decide)⟩

end SkillTracker
